import Mathlib

/-!
Shallow embedding of the trading-performance analytics engine of
`src/backend/src/utils/calculations.ts` (personal-trading-journal).

Modelling conventions:
* JS `number` values are modelled as `ℚ` (exact arithmetic); timestamps
  (`Date.getTime()` milliseconds) as `ℤ`.
* Nullable fields (`pnl`, `closedAt`) are `Option`s; `x ?? 0` is `Option.getD 0`.
* `profitFactor` and the risk-percent quotient can be the IEEE `Infinity`,
  so those two computations use the extended type `JSNum`.
* The impure reads in `detectBehaviorWarnings` (`new Date()` and the local
  time-zone day truncation `setHours(0,0,0,0)`) are passed in explicitly:
  `today` is the already-truncated current day and `startOfDay` is the
  truncation function applied to a timestamp.
* Warning messages are template strings in the source; they are modelled as
  structured data carrying exactly the interpolated quantities.
-/

namespace TradingJournal

/-- Position direction, `'BELI' | 'JUAL'` in `calculatePnL` (BELI is the
long-equivalent side, JUAL the short-equivalent side). -/
inductive Position where
  | BELI
  | JUAL
deriving DecidableEq, Repr

/-- The fields of the Prisma `Trade` entity that the analytics engine reads. -/
structure Trade where
  asset : String
  position : Position
  entryPrice : ℚ
  quantity : ℚ
  openedAt : ℤ
  closedAt : Option ℤ
  pnl : Option ℚ
  isOpen : Bool
deriving DecidableEq, Repr

/-- `t.pnl ?? 0`. -/
def pnlOr0 (t : Trade) : ℚ := t.pnl.getD 0

/-- Result record of `calculatePnL`. -/
structure PnLResult where
  pnl : ℚ
  pnlPercent : ℚ
deriving DecidableEq, Repr

/-- `calculatePnL` (calculations.ts lines 4-23). -/
def calculatePnL (position : Position) (entryPrice exitPrice quantity fees : ℚ) :
    PnLResult :=
  let pnl : ℚ :=
    match position with
    | Position.BELI => (exitPrice - entryPrice) * quantity - fees
    | Position.JUAL => (entryPrice - exitPrice) * quantity - fees
  let investment := entryPrice * quantity
  let pnlPercent := if investment > 0 then pnl / investment * 100 else 0
  ⟨pnl, pnlPercent⟩

/-- Extended JS number: a finite rational, one of the two infinities, or NaN.
Used only where the source can actually produce a non-finite value. -/
inductive JSNum where
  | fin (q : ℚ)
  | posInf
  | negInf
  | nan
deriving DecidableEq, Repr

/-- IEEE division of two finite values, as JS `a / b`. -/
def jsDiv (a b : ℚ) : JSNum :=
  if b ≠ 0 then JSNum.fin (a / b)
  else if a > 0 then JSNum.posInf
  else if a < 0 then JSNum.negInf
  else JSNum.nan

/-- JS multiplication of an extended number by a finite constant. -/
def JSNum.mul (x : JSNum) (c : ℚ) : JSNum :=
  match x with
  | JSNum.fin q => JSNum.fin (q * c)
  | JSNum.posInf => if c > 0 then JSNum.posInf else if c < 0 then JSNum.negInf else JSNum.nan
  | JSNum.negInf => if c > 0 then JSNum.negInf else if c < 0 then JSNum.posInf else JSNum.nan
  | JSNum.nan => JSNum.nan

/-- JS comparison `x > c` against a finite threshold (`NaN > c` is false). -/
def JSNum.gtQ (x : JSNum) (c : ℚ) : Bool :=
  match x with
  | JSNum.fin q => decide (q > c)
  | JSNum.posInf => true
  | JSNum.negInf => false
  | JSNum.nan => false

/-- JS `Math.round` on a finite value: nearest integer, ties toward `+∞`. -/
def jsRound (q : ℚ) : ℤ := ⌊q + 1 / 2⌋

/-- `Math.round(q * 100) / 100`: round to 2 decimals, JS semantics. -/
def round2 (q : ℚ) : ℚ := (jsRound (q * 100) : ℚ) / 100

/-- `Math.round(x * 100) / 100` on an extended number
(`Math.round` fixes the infinities and NaN). -/
def JSNum.round2 : JSNum → JSNum
  | JSNum.fin q => JSNum.fin (TradingJournal.round2 q)
  | x => x

/-- Result record of `calculateMetrics`.  All fields are finite except
`profitFactor`, which the source sets to `Infinity` when there are winners
but no losers. -/
structure PerformanceMetrics where
  totalTrades : ℕ
  winningTrades : ℕ
  losingTrades : ℕ
  winRate : ℚ
  avgWin : ℚ
  avgLoss : ℚ
  profitFactor : JSNum
  maxDrawdown : ℚ
  expectancy : ℚ
deriving DecidableEq, Repr

/-- `trades.filter(t => !t.isOpen && t.pnl !== null)` (line 26). -/
def closedTradesOf (trades : List Trade) : List Trade :=
  trades.filter (fun t => !t.isOpen && t.pnl.isSome)

/-- `closedTrades.filter(t => (t.pnl ?? 0) > 0)` (line 42). -/
def winningTradesOf (closedTrades : List Trade) : List Trade :=
  closedTrades.filter (fun t => decide (pnlOr0 t > 0))

/-- `closedTrades.filter(t => (t.pnl ?? 0) < 0)` (line 43). -/
def losingTradesOf (closedTrades : List Trade) : List Trade :=
  closedTrades.filter (fun t => decide (pnlOr0 t < 0))

/-- `winningTrades.reduce((sum, t) => sum + (t.pnl ?? 0), 0)` (line 45);
the left fold of `+` over `ℚ` is written as a list sum. -/
def grossProfitOf (closedTrades : List Trade) : ℚ :=
  ((winningTradesOf closedTrades).map pnlOr0).sum

/-- `Math.abs(losingTrades.reduce((sum, t) => sum + (t.pnl ?? 0), 0))` (line 46). -/
def grossLossOf (closedTrades : List Trade) : ℚ :=
  |((losingTradesOf closedTrades).map pnlOr0).sum|

/-- `winRate` (lines 48-50). -/
def winRateOf (closedTrades : List Trade) : ℚ :=
  if closedTrades.length > 0 then
    ((winningTradesOf closedTrades).length : ℚ) / (closedTrades.length : ℚ) * 100
  else 0

/-- `avgWin` (lines 52-54). -/
def avgWinOf (closedTrades : List Trade) : ℚ :=
  if (winningTradesOf closedTrades).length > 0 then
    grossProfitOf closedTrades / ((winningTradesOf closedTrades).length : ℚ)
  else 0

/-- `avgLoss` (lines 56-58). -/
def avgLossOf (closedTrades : List Trade) : ℚ :=
  if (losingTradesOf closedTrades).length > 0 then
    grossLossOf closedTrades / ((losingTradesOf closedTrades).length : ℚ)
  else 0

/-- `profitFactor = grossLoss > 0 ? grossProfit / grossLoss : grossProfit > 0 ? Infinity : 0`
(line 60). -/
def profitFactorOf (closedTrades : List Trade) : JSNum :=
  if grossLossOf closedTrades > 0 then
    JSNum.fin (grossProfitOf closedTrades / grossLossOf closedTrades)
  else if grossProfitOf closedTrades > 0 then JSNum.posInf
  else JSNum.fin 0

/-- `expectancy = (winRate/100 * avgWin) - (lossRate/100 * avgLoss)` with
`lossRate = 100 - winRate` (lines 66-67). -/
def expectancyOf (closedTrades : List Trade) : ℚ :=
  winRateOf closedTrades / 100 * avgWinOf closedTrades -
    (100 - winRateOf closedTrades) / 100 * avgLossOf closedTrades

/-- Sort key of `calculateMaxDrawdown`:
`t.closedAt ? new Date(t.closedAt).getTime() : 0` (lines 87-88). -/
def closeKey (t : Trade) : ℤ := t.closedAt.getD 0

/-- Insert a trade into a list sorted by `closeKey`, before the first element
with a key `≥` its own — together with `sortByCloseKey` this is a stable
sort, matching the ES2019-stable `Array.prototype.sort` of line 86. -/
def insertByCloseKey (t : Trade) : List Trade → List Trade
  | [] => [t]
  | u :: rest =>
    if closeKey t ≤ closeKey u then t :: u :: rest
    else u :: insertByCloseKey t rest

/-- Stable sort of trades ascending by `closeKey` (line 86-90). -/
def sortByCloseKey : List Trade → List Trade
  | [] => []
  | t :: rest => insertByCloseKey t (sortByCloseKey rest)

/-- The loop of `calculateMaxDrawdown` (lines 92-105); arguments after the
list are the mutable locals `peak`, `maxDrawdown`, `cumulative`. -/
def ddLoop : List Trade → ℚ → ℚ → ℚ → ℚ
  | [], _, maxDrawdown, _ => maxDrawdown
  | trade :: rest, peak, maxDrawdown, cumulative =>
    let cumulative1 := cumulative + pnlOr0 trade
    let peak1 := if cumulative1 > peak then cumulative1 else peak
    let drawdown := peak1 - cumulative1
    let maxDrawdown1 := if drawdown > maxDrawdown then drawdown else maxDrawdown
    ddLoop rest peak1 maxDrawdown1 cumulative1

/-- `calculateMaxDrawdown` (lines 82-108). -/
def calculateMaxDrawdown (trades : List Trade) : ℚ :=
  if trades.length = 0 then 0
  else ddLoop (sortByCloseKey trades) 0 0 0

/-- `calculateMetrics` (lines 25-80).  Fields in order: totalTrades,
winningTrades, losingTrades, winRate, avgWin, avgLoss, profitFactor,
maxDrawdown, expectancy; the last six are rounded at the return statement. -/
def calculateMetrics (trades : List Trade) : PerformanceMetrics :=
  let closedTrades := closedTradesOf trades
  if closedTrades.length = 0 then
    ⟨0, 0, 0, 0, 0, 0, JSNum.fin 0, 0, 0⟩
  else
    ⟨closedTrades.length,
     (winningTradesOf closedTrades).length,
     (losingTradesOf closedTrades).length,
     round2 (winRateOf closedTrades),
     round2 (avgWinOf closedTrades),
     round2 (avgLossOf closedTrades),
     (profitFactorOf closedTrades).round2,
     round2 (calculateMaxDrawdown closedTrades),
     round2 (expectancyOf closedTrades)⟩

/-- The `type` field of a `BehaviorWarning` (types/index.ts line 47). -/
inductive WarningType where
  | OVERTRADING
  | REVENGE_TRADING
  | HIGH_RISK
  | CONSECUTIVE_LOSS
deriving DecidableEq, Repr

/-- The `severity` field of a `BehaviorWarning` (types/index.ts line 49). -/
inductive Severity where
  | LOW
  | MEDIUM
  | HIGH
deriving DecidableEq, Repr

/-- The template-string messages of the four warnings, modelled as structured
data carrying exactly the interpolated quantities (string rendering elided). -/
inductive WarningMessage where
  | overtradingMsg (tradeCount : ℕ)
  | revengeMsg
  | highRiskMsg (asset : String) (riskPercent : JSNum)
  | consecutiveLossMsg (lossCount : ℕ)
deriving DecidableEq, Repr

/-- `BehaviorWarning` (types/index.ts lines 46-51); `date` is the timestamp
whose ISO rendering the source stores. -/
structure BehaviorWarning where
  type : WarningType
  message : WarningMessage
  severity : Severity
  date : ℤ
deriving DecidableEq, Repr

/-- `trades.filter(...)` of lines 116-120: the trades whose `openedAt`
truncated to local midnight equals `today` (the truncated current day). -/
def todayTradesOf (startOfDay : ℤ → ℤ) (today : ℤ) (trades : List Trade) :
    List Trade :=
  trades.filter (fun t => decide (startOfDay t.openedAt = today))

/-- Overtrading rule (lines 122-130). -/
def overtradingWarnings (todayTrades : List Trade) (today : ℤ) :
    List BehaviorWarning :=
  if todayTrades.length > 10 then
    [⟨WarningType.OVERTRADING, WarningMessage.overtradingMsg todayTrades.length,
      if todayTrades.length > 15 then Severity.HIGH else Severity.MEDIUM, today⟩]
  else []

/-- The behavior analyzer's closed-trade filter,
`trades.filter(t => !t.isOpen && t.closedAt)` (line 133) — note it differs
from the metrics filter by testing `closedAt` rather than `pnl`. -/
def closedWithCloseTime (trades : List Trade) : List Trade :=
  trades.filter (fun t => !t.isOpen && t.closedAt.isSome)

/-- `prevTrade.pnl && prevTrade.pnl < 0` (line 138): JS truthiness of the
nullable pnl conjoined with the comparison, i.e. the pnl is non-null and
negative (a truthy-but-positive pnl fails the comparison, `null < 0` and
`0 && _` are falsy). -/
def isLossB (t : Trade) : Bool :=
  match t.pnl with
  | some p => decide (p < 0)
  | none => false

/-- The revenge-trading loop (lines 134-150): walk adjacent pairs of the
closed-trade list in the order given; on the first pair that is a loss
followed by an open within 5 minutes, emit the single HIGH warning and
stop (`break`). -/
def revengeScan : List Trade → Option BehaviorWarning
  | prevTrade :: currTrade :: rest =>
    if (isLossB prevTrade && prevTrade.closedAt.isSome) then
      let timeDiff := currTrade.openedAt - prevTrade.closedAt.getD 0
      if timeDiff < 5 * 60 * 1000 then
        some ⟨WarningType.REVENGE_TRADING, WarningMessage.revengeMsg,
              Severity.HIGH, currTrade.openedAt⟩
      else revengeScan (currTrade :: rest)
    else revengeScan (currTrade :: rest)
  | _ => none

/-- `riskPercent = (riskAmount / accountBalance) * 100` with
`riskAmount = entryPrice * quantity` (lines 154-155).  The division is the
raw JS division — it is not guarded, so a zero balance yields an infinity. -/
def riskPercentOf (accountBalance : ℚ) (t : Trade) : JSNum :=
  (jsDiv (t.entryPrice * t.quantity) accountBalance).mul 100

/-- Oversized-risk rule (lines 152-164): one warning per offending trade
opened today. -/
def highRiskWarnings (todayTrades : List Trade) (accountBalance : ℚ) :
    List BehaviorWarning :=
  todayTrades.filterMap (fun t =>
    let riskPercent := riskPercentOf accountBalance t
    if riskPercent.gtQ 2 then
      some ⟨WarningType.HIGH_RISK, WarningMessage.highRiskMsg t.asset riskPercent,
            if riskPercent.gtQ 5 then Severity.HIGH else Severity.MEDIUM,
            t.openedAt⟩
    else none)

/-- The trailing-streak count of lines 169-175: walk a list and count
leading trades with `(pnl ?? 0) < 0`, stopping at the first other trade
(the source walks its array from the last index down, i.e. this function
applied to the reversed array). -/
def countLeadingLosses : List Trade → ℕ
  | [] => 0
  | t :: rest => if pnlOr0 t < 0 then countLeadingLosses rest + 1 else 0

/-- `consecutiveLosses` (lines 167-175): `closedTrades.slice(-5)` is the
last five elements in caller-supplied order; the downward walk is the
leading-loss count of the reversal. -/
def consecutiveLossesOf (closedTrades : List Trade) : ℕ :=
  countLeadingLosses ((closedTrades.drop (closedTrades.length - 5)).reverse)

/-- Consecutive-loss rule (lines 177-184). -/
def consecutiveLossWarnings (closedTrades : List Trade) (today : ℤ) :
    List BehaviorWarning :=
  let consecutiveLosses := consecutiveLossesOf closedTrades
  if consecutiveLosses ≥ 3 then
    [⟨WarningType.CONSECUTIVE_LOSS,
      WarningMessage.consecutiveLossMsg consecutiveLosses,
      if consecutiveLosses ≥ 5 then Severity.HIGH else Severity.MEDIUM, today⟩]
  else []

/-- `detectBehaviorWarnings` (lines 110-187).  The four rules push their
warnings into one array in source order. -/
def detectBehaviorWarnings (startOfDay : ℤ → ℤ) (today : ℤ)
    (trades : List Trade) (accountBalance : ℚ) : List BehaviorWarning :=
  let todayTrades := todayTradesOf startOfDay today trades
  let closedTrades := closedWithCloseTime trades
  overtradingWarnings todayTrades today
    ++ (revengeScan closedTrades).toList
    ++ highRiskWarnings todayTrades accountBalance
    ++ consecutiveLossWarnings closedTrades today

/-! ### Claim-side definitions

The following definitions follow the words of the specification (not the
source); they exist to be compared with the source-derived definitions
above. -/

/-- Follows the spec's words (§4.2): round to 2 decimal places with
round-half-AWAY-FROM-ZERO semantics. -/
def roundHalfAwayFromZero2 (q : ℚ) : ℚ :=
  if 0 ≤ q then (⌊q * 100 + 1 / 2⌋ : ℚ) / 100
  else -((⌊-(q * 100) + 1 / 2⌋ : ℚ) / 100)

/-- Follows the spec's words (§4.3 rule 2): the revenge scan performed over
the closed trades sorted ascending by close time. -/
def revengeScanSpec (closedTrades : List Trade) : Option BehaviorWarning :=
  revengeScan (sortByCloseKey closedTrades)

/-- Follows the spec's words (§4.3 rule 4): the trailing loss streak of the
5 most recently CLOSED trades, counted from the most recent backwards. -/
def consecutiveLossesSpec (closedTrades : List Trade) : ℕ :=
  let sorted := sortByCloseKey closedTrades
  countLeadingLosses ((sorted.drop (sorted.length - 5)).reverse)

/-- Follows the claim's words (C4): the risk-percent quotient with its
denominator guarded, substituting the fallback 0. -/
def riskPercentGuarded (accountBalance : ℚ) (t : Trade) : ℚ :=
  if accountBalance ≠ 0 then t.entryPrice * t.quantity / accountBalance * 100
  else 0

/-- The pnl values of a trade list in close-time order (the sequence the
spec's maxDrawdown sentence quantifies over). -/
def pnlSeqInCloseOrder (trades : List Trade) : List ℚ :=
  (sortByCloseKey trades).map pnlOr0

/-- The spec's premise in C3: the pnl values form a non-decreasing sequence
in close-time order. -/
def pnlNonDecreasingInCloseOrder (trades : List Trade) : Prop :=
  List.Chain' (fun a b => a ≤ b) (pnlSeqInCloseOrder trades)

/-- The condition on an adjacent pair of closed trades under which the
revenge-trading loop fires: the earlier trade is a loss with a close time,
and the later trade opened less than 5 minutes after that close. -/
def revengePairTrigger (pr : Trade × Trade) : Prop :=
  isLossB pr.1 = true ∧ pr.1.closedAt.isSome = true ∧
    pr.2.openedAt - pr.1.closedAt.getD 0 < 5 * 60 * 1000

/-! ### Concrete trades used to instantiate theorems -/

/-- A closed winning trade (pnl `1`, closed at time 100). -/
def cxWin : Trade := ⟨"A", Position.BELI, 1, 1, 0, some 100, some 1, false⟩

/-- A closed losing trade (pnl `-1`, closed at time 100). -/
def cxLoss : Trade := ⟨"A", Position.BELI, 1, 1, 0, some 100, some (-1), false⟩

/-- A closed trade losing exactly half a cent (pnl `-1/200`). -/
def cxHalfCent : Trade := ⟨"A", Position.BELI, 1, 1, 0, some 100, some (-(1 / 200)), false⟩

/-- A winning trade that closes late (close 1000000) but, in caller order,
precedes `cxEarlyLoss`. -/
def cxLateWin : Trade := ⟨"A", Position.BELI, 1, 1, 2000, some 1000000, some 1, false⟩

/-- A losing trade that closed at time 1000; `cxLateWin.openedAt = 2000` is
1 second after it, well inside the 5-minute window. -/
def cxEarlyLoss : Trade := ⟨"B", Position.BELI, 1, 1, 0, some 1000, some (-1), false⟩

/-- Closed trade constructor used for the list below. -/
def mkClosed (a : String) (oA cA : ℤ) (p : ℚ) : Trade :=
  ⟨a, Position.BELI, 1, 1, oA, some cA, some p, false⟩

/-- Six closed trades listed in reverse-chronological order (most recently
closed first) — the order the repository's own caller supplies
(`orderBy openedAt desc`).  By close time, the three most recent trades
are losses; at the list's tail end the streak is only two. -/
def cxDescList : List Trade :=
  [mkClosed "t6" 590 600 (-1), mkClosed "t5" 490 500 (-1), mkClosed "t4" 390 400 (-1),
   mkClosed "t3" 290 300 1, mkClosed "t2" 190 200 (-1), mkClosed "t1" 90 100 (-1)]

/-- An open trade with `entryPrice * quantity = 1 > 0`, opened at time 0. -/
def cxOpenToday : Trade := ⟨"BTC", Position.BELI, 1, 1, 0, none, none, true⟩

/-- A losing trade whose close time (1000000) is AFTER the open time of the
trade that follows it in the list. -/
def cxPrevLoss : Trade := ⟨"P", Position.BELI, 1, 1, 1, some 1000000, some (-1), false⟩

/-- A closed trade that opened at time 0, i.e. 1000 seconds BEFORE
`cxPrevLoss` closed (a negative gap). -/
def cxQuickOpen : Trade := ⟨"C", Position.BELI, 1, 1, 0, some 2000000, some 1, false⟩

/-! ### Helper lemmas -/

theorem mem_insertByCloseKey {x t : Trade} {l : List Trade} :
    x ∈ insertByCloseKey t l ↔ x = t ∨ x ∈ l := by
  induction l with
  | nil => simp [insertByCloseKey]
  | cons u rest ih =>
    simp only [insertByCloseKey]
    split
    · simp [List.mem_cons]
    · simp only [List.mem_cons, ih]
      tauto

theorem mem_sortByCloseKey {x : Trade} {l : List Trade} :
    x ∈ sortByCloseKey l ↔ x ∈ l := by
  induction l with
  | nil => simp [sortByCloseKey]
  | cons t rest ih =>
    simp [sortByCloseKey, mem_insertByCloseKey, ih]

theorem ddLoop_le (l : List Trade) :
    ∀ peak maxDD cum : ℚ, maxDD ≤ ddLoop l peak maxDD cum := by
  induction l with
  | nil =>
    intro peak maxDD cum
    simp [ddLoop]
  | cons t rest ih =>
    intro peak maxDD cum
    simp only [ddLoop]
    refine le_trans ?_ (ih _ _ _)
    split
    · split
      · next h => exact le_of_lt h
      · exact le_refl _
    · split
      · next h => exact le_of_lt h
      · exact le_refl _

theorem ddLoop_eq_of_nonneg (l : List Trade) :
    ∀ cum maxDD : ℚ, 0 ≤ maxDD → (∀ t ∈ l, 0 ≤ pnlOr0 t) →
      ddLoop l cum maxDD cum = maxDD := by
  induction l with
  | nil =>
    intro cum maxDD h1 h2
    simp [ddLoop]
  | cons t rest ih =>
    intro cum maxDD h1 h2
    have ht : 0 ≤ pnlOr0 t := h2 t (List.mem_cons_self t rest)
    simp only [ddLoop]
    have hpeak : (if cum + pnlOr0 t > cum then cum + pnlOr0 t else cum)
        = cum + pnlOr0 t := by
      split
      · rfl
      · next h => linarith
    rw [hpeak, sub_self, if_neg (not_lt.mpr h1)]
    exact ih _ _ h1 (fun u hu => h2 u (List.mem_cons_of_mem t hu))

theorem calculateMaxDrawdown_nonneg (trades : List Trade) :
    0 ≤ calculateMaxDrawdown trades := by
  unfold calculateMaxDrawdown
  split
  · exact le_refl 0
  · exact ddLoop_le _ 0 0 0

theorem countLeadingLosses_le (l : List Trade) :
    countLeadingLosses l ≤ l.length := by
  induction l with
  | nil => simp [countLeadingLosses]
  | cons t rest ih =>
    simp only [countLeadingLosses, List.length_cons]
    split
    · omega
    · omega

theorem consecutiveLossesOf_le_five (l : List Trade) :
    consecutiveLossesOf l ≤ 5 := by
  unfold consecutiveLossesOf
  refine le_trans (countLeadingLosses_le _) ?_
  rw [List.length_reverse, List.length_drop]
  omega

theorem riskPercentOf_zero_balance (t : Trade)
    (h : 0 < t.entryPrice * t.quantity) :
    riskPercentOf 0 t = JSNum.posInf := by
  norm_num [riskPercentOf, jsDiv, JSNum.mul, h]

theorem isLossB_eq_true_iff {t : Trade} :
    isLossB t = true ↔ ∃ p, t.pnl = some p ∧ p < 0 := by
  unfold isLossB
  cases h : t.pnl with
  | none => simp
  | some p => simp

theorem revengeScan_eq_some {l : List Trade} {w : BehaviorWarning}
    (h : revengeScan l = some w) :
    w.type = WarningType.REVENGE_TRADING ∧ w.severity = Severity.HIGH ∧
      w.message = WarningMessage.revengeMsg := by
  induction l with
  | nil => simp [revengeScan] at h
  | cons a tail ih =>
    cases tail with
    | nil => simp [revengeScan] at h
    | cons b r =>
      simp only [revengeScan] at h
      split at h
      · split at h
        · obtain rfl := Option.some.inj h
          exact ⟨rfl, rfl, rfl⟩
        · exact ih h
      · exact ih h

theorem revengeScan_isSome_iff (l : List Trade) :
    (revengeScan l).isSome = true ↔
      ∃ pr ∈ l.zip l.tail, revengePairTrigger pr := by
  induction l with
  | nil => simp [revengeScan]
  | cons a tail ih =>
    cases tail with
    | nil => simp [revengeScan]
    | cons b r =>
      have hzip : (a :: b :: r).zip (a :: b :: r).tail
          = (a, b) :: (b :: r).zip (b :: r).tail := rfl
      rw [hzip]
      simp only [revengeScan]
      split
      · next hcond =>
        obtain ⟨hloss, hclosed⟩ := Bool.and_eq_true_iff.mp hcond
        split
        · next hgap =>
          simp only [Option.isSome_some, true_iff]
          exact ⟨(a, b), List.mem_cons_self _ _, hloss, hclosed, hgap⟩
        · next hgap =>
          rw [ih]
          constructor
          · rintro ⟨pr, hpr, htr⟩
            exact ⟨pr, List.mem_cons_of_mem _ hpr, htr⟩
          · rintro ⟨pr, hpr, htr⟩
            rcases List.mem_cons.mp hpr with hab | hpr2
            · subst hab
              exact absurd htr.2.2 hgap
            · exact ⟨pr, hpr2, htr⟩
      · next hcond =>
        rw [ih]
        constructor
        · rintro ⟨pr, hpr, htr⟩
          exact ⟨pr, List.mem_cons_of_mem _ hpr, htr⟩
        · rintro ⟨pr, hpr, htr⟩
          rcases List.mem_cons.mp hpr with hab | hpr2
          · subst hab
            exact absurd (Bool.and_eq_true_iff.mpr ⟨htr.1, htr.2.1⟩) hcond
          · exact ⟨pr, hpr2, htr⟩

theorem mem_overtradingWarnings {w : BehaviorWarning} {tt : List Trade} {d : ℤ}
    (hw : w ∈ overtradingWarnings tt d) :
    w.type = WarningType.OVERTRADING ∧
      (w.severity = Severity.MEDIUM ∨ w.severity = Severity.HIGH) := by
  unfold overtradingWarnings at hw
  split at hw
  · obtain rfl := List.mem_singleton.mp hw
    refine ⟨rfl, ?_⟩
    split
    · exact Or.inr rfl
    · exact Or.inl rfl
  · simp at hw

theorem mem_highRiskWarnings {w : BehaviorWarning} {tt : List Trade} {bal : ℚ}
    (hw : w ∈ highRiskWarnings tt bal) :
    w.type = WarningType.HIGH_RISK ∧
      (w.severity = Severity.MEDIUM ∨ w.severity = Severity.HIGH) := by
  simp only [highRiskWarnings, List.mem_filterMap] at hw
  obtain ⟨t, _, ht⟩ := hw
  split at ht
  · obtain rfl := Option.some.inj ht
    refine ⟨rfl, ?_⟩
    split
    · exact Or.inr rfl
    · exact Or.inl rfl
  · exact absurd ht (by simp)

theorem mem_consecutiveLossWarnings {w : BehaviorWarning} {ct : List Trade} {d : ℤ}
    (hw : w ∈ consecutiveLossWarnings ct d) :
    w.type = WarningType.CONSECUTIVE_LOSS ∧
      (w.severity = Severity.MEDIUM ∨ w.severity = Severity.HIGH) := by
  simp only [consecutiveLossWarnings] at hw
  split at hw
  · obtain rfl := List.mem_singleton.mp hw
    refine ⟨rfl, ?_⟩
    split
    · exact Or.inr rfl
    · exact Or.inl rfl
  · simp at hw

theorem detect_filter_revenge (sod : ℤ → ℤ) (today : ℤ) (trades : List Trade)
    (bal : ℚ) :
    (detectBehaviorWarnings sod today trades bal).filter
        (fun w => decide (w.type = WarningType.REVENGE_TRADING)) =
      (revengeScan (closedWithCloseTime trades)).toList := by
  have hO : (overtradingWarnings (todayTradesOf sod today trades) today).filter
      (fun w => decide (w.type = WarningType.REVENGE_TRADING)) = [] :=
    List.filter_eq_nil_iff.mpr
      (fun w hw => by simp [(mem_overtradingWarnings hw).1])
  have hH : (highRiskWarnings (todayTradesOf sod today trades) bal).filter
      (fun w => decide (w.type = WarningType.REVENGE_TRADING)) = [] :=
    List.filter_eq_nil_iff.mpr
      (fun w hw => by simp [(mem_highRiskWarnings hw).1])
  have hC : (consecutiveLossWarnings (closedWithCloseTime trades) today).filter
      (fun w => decide (w.type = WarningType.REVENGE_TRADING)) = [] :=
    List.filter_eq_nil_iff.mpr
      (fun w hw => by simp [(mem_consecutiveLossWarnings hw).1])
  unfold detectBehaviorWarnings
  rw [List.filter_append, List.filter_append, List.filter_append, hO, hH, hC]
  cases hrs : revengeScan (closedWithCloseTime trades) with
  | none => simp
  | some w => simp [(revengeScan_eq_some hrs).1]

theorem detect_filter_consecutive (sod : ℤ → ℤ) (today : ℤ) (trades : List Trade)
    (bal : ℚ) :
    (detectBehaviorWarnings sod today trades bal).filter
        (fun w => decide (w.type = WarningType.CONSECUTIVE_LOSS)) =
      consecutiveLossWarnings (closedWithCloseTime trades) today := by
  have hO : (overtradingWarnings (todayTradesOf sod today trades) today).filter
      (fun w => decide (w.type = WarningType.CONSECUTIVE_LOSS)) = [] :=
    List.filter_eq_nil_iff.mpr
      (fun w hw => by simp [(mem_overtradingWarnings hw).1])
  have hH : (highRiskWarnings (todayTradesOf sod today trades) bal).filter
      (fun w => decide (w.type = WarningType.CONSECUTIVE_LOSS)) = [] :=
    List.filter_eq_nil_iff.mpr
      (fun w hw => by simp [(mem_highRiskWarnings hw).1])
  have hC : (consecutiveLossWarnings (closedWithCloseTime trades) today).filter
      (fun w => decide (w.type = WarningType.CONSECUTIVE_LOSS)) =
      consecutiveLossWarnings (closedWithCloseTime trades) today :=
    List.filter_eq_self.mpr
      (fun w hw => by simp [(mem_consecutiveLossWarnings hw).1])
  unfold detectBehaviorWarnings
  rw [List.filter_append, List.filter_append, List.filter_append, hO, hH, hC]
  cases hrs : revengeScan (closedWithCloseTime trades) with
  | none => simp
  | some w => simp [(revengeScan_eq_some hrs).1]

/-! ### Claims -/

/-- C1: for every position and all inputs, `calculatePnL` returns
`pnl = (exitPrice - entryPrice) * quantity - fees` for the long-equivalent
(BELI) position and `pnl = (entryPrice - exitPrice) * quantity - fees` for
the short-equivalent (JUAL) position, and returns
`pnlPercent = pnl / (entryPrice * quantity) * 100` when
`entryPrice * quantity > 0` and `pnlPercent = 0` otherwise. -/
theorem C1_calculatePnL_formula (entryPrice exitPrice quantity fees : ℚ) :
    (calculatePnL Position.BELI entryPrice exitPrice quantity fees).pnl
        = (exitPrice - entryPrice) * quantity - fees ∧
    (calculatePnL Position.JUAL entryPrice exitPrice quantity fees).pnl
        = (entryPrice - exitPrice) * quantity - fees ∧
    ∀ position, (calculatePnL position entryPrice exitPrice quantity fees).pnlPercent
        = if entryPrice * quantity > 0 then
            (calculatePnL position entryPrice exitPrice quantity fees).pnl
              / (entryPrice * quantity) * 100
          else 0 := by
  refine ⟨rfl, rfl, ?_⟩
  intro position
  cases position <;> rfl

/-- C8: with zero fees, the pnl of the long-equivalent (BELI) position is
the exact negation of the pnl of the short-equivalent (JUAL) position on
the same entry, exit and quantity. -/
theorem C8_long_short_antisymmetry (e x q : ℚ) :
    (calculatePnL Position.BELI e x q 0).pnl
      = -(calculatePnL Position.JUAL e x q 0).pnl := by
  simp only [calculatePnL]
  ring

/-- C2: on a trade list with a non-empty closed subset, the profit factor
computed by `calculateMetrics` is `grossProfit / grossLoss` if
`grossLoss > 0`, else `+∞` if `grossProfit > 0`, else `0` (the returned
field carries this value through the 2-decimal output rounding, which fixes
the `+∞` and `0` branches). -/
theorem C2_profitFactor_formula (trades : List Trade)
    (h : closedTradesOf trades ≠ []) :
    profitFactorOf (closedTradesOf trades)
        = (if grossLossOf (closedTradesOf trades) > 0 then
            JSNum.fin (grossProfitOf (closedTradesOf trades)
              / grossLossOf (closedTradesOf trades))
          else if grossProfitOf (closedTradesOf trades) > 0 then JSNum.posInf
          else JSNum.fin 0) ∧
    (calculateMetrics trades).profitFactor
        = (profitFactorOf (closedTradesOf trades)).round2 := by
  refine ⟨rfl, ?_⟩
  unfold calculateMetrics
  rw [if_neg (by simpa using h)]

/-- Witness for C2 at a concrete two-trade list (one winner, one loser). -/
theorem C2_profitFactor_formula_witness :
    closedTradesOf [cxWin, cxLoss] ≠ [] ∧
    (calculateMetrics [cxWin, cxLoss]).profitFactor
        = (profitFactorOf (closedTradesOf [cxWin, cxLoss])).round2 :=
  ⟨by simp [closedTradesOf, List.filter, cxWin, cxLoss],
   (C2_profitFactor_formula [cxWin, cxLoss]
     (by simp [closedTradesOf, List.filter, cxWin, cxLoss])).2⟩

/-- C3 counterexample: a single closed trade with pnl `-1` has a
(trivially) non-decreasing pnl sequence in close-time order, yet
`calculateMaxDrawdown` returns `1`, not `0` — the running peak starts at
`0`, so any initial cumulative loss already counts as drawdown. -/
theorem C3_counterexample :
    pnlNonDecreasingInCloseOrder [cxLoss] ∧ calculateMaxDrawdown [cxLoss] ≠ 0 := by
  constructor
  · norm_num [pnlNonDecreasingInCloseOrder, pnlSeqInCloseOrder, sortByCloseKey,
      insertByCloseKey, pnlOr0, cxLoss]
  · norm_num [calculateMaxDrawdown, sortByCloseKey, insertByCloseKey, ddLoop,
      pnlOr0, cxLoss]

/-- C3 amended: `calculateMaxDrawdown` is always `≥ 0`, and it equals `0`
whenever every closed trade's pnl is non-negative (non-decreasing pnl values
alone do not suffice, per the counterexample). -/
theorem C3_maxDrawdown_amended :
    (∀ trades : List Trade, 0 ≤ calculateMaxDrawdown trades) ∧
    (∀ trades : List Trade, (∀ t ∈ trades, 0 ≤ pnlOr0 t) →
      calculateMaxDrawdown trades = 0) := by
  constructor
  · exact calculateMaxDrawdown_nonneg
  · intro trades hall
    unfold calculateMaxDrawdown
    split
    · rfl
    · exact ddLoop_eq_of_nonneg _ 0 0 (le_refl 0)
        (fun t ht => hall t (mem_sortByCloseKey.mp ht))

/-- Witness for C3 (amended) at a concrete winning trade. -/
theorem C3_maxDrawdown_amended_witness :
    0 ≤ calculateMaxDrawdown [cxWin] ∧ calculateMaxDrawdown [cxWin] = 0 :=
  ⟨C3_maxDrawdown_amended.1 [cxWin],
   C3_maxDrawdown_amended.2 [cxWin] (by
     intro t ht
     rw [List.mem_singleton.mp ht]
     norm_num [pnlOr0, cxWin])⟩

/-- C5 counterexample: for a single closed trade with pnl `-1/200` the
full-precision expectancy is `-1/200 = -0.005`; `Math.round` (ties toward
`+∞`) makes the returned expectancy `0`, while round-half-away-from-zero
would give `-0.01`.  So the outputs are not rounded with
round-half-away-from-zero semantics. -/
theorem C5_counterexample :
    (calculateMetrics [cxHalfCent]).expectancy = 0 ∧
    roundHalfAwayFromZero2 (expectancyOf (closedTradesOf [cxHalfCent]))
        = -(1 / 100) ∧
    (0 : ℚ) ≠ -(1 / 100) := by
  refine ⟨?_, ?_, by norm_num⟩
  · norm_num [calculateMetrics, closedTradesOf, List.filter, cxHalfCent, round2,
      jsRound, expectancyOf, winRateOf, avgWinOf, avgLossOf, winningTradesOf,
      losingTradesOf, grossProfitOf, grossLossOf, pnlOr0, abs_of_pos,
      abs_of_nonneg]
  · norm_num [roundHalfAwayFromZero2, expectancyOf, closedTradesOf, List.filter,
      cxHalfCent, winRateOf, avgWinOf, avgLossOf, winningTradesOf,
      losingTradesOf, grossProfitOf, grossLossOf, pnlOr0, abs_of_pos,
      abs_of_nonneg]

/-- C5 amended: each of the six rounded output fields of `calculateMetrics`
(winRate, avgWin, avgLoss, profitFactor, maxDrawdown, expectancy) equals
the full-precision internal value rounded at the output boundary with JS
`Math.round` semantics — on finite values `⌊q·100 + 1/2⌋ / 100`, ties
toward `+∞`, with the profit factor's `+∞` fixed by the rounding — which
agrees with round-half-away-from-zero on non-negative values but not on
negative ties. -/
theorem C5_rounding_amended (trades : List Trade)
    (h : closedTradesOf trades ≠ []) :
    ((calculateMetrics trades).winRate
        = (⌊winRateOf (closedTradesOf trades) * 100 + 1 / 2⌋ : ℚ) / 100 ∧
     (calculateMetrics trades).avgWin
        = (⌊avgWinOf (closedTradesOf trades) * 100 + 1 / 2⌋ : ℚ) / 100 ∧
     (calculateMetrics trades).avgLoss
        = (⌊avgLossOf (closedTradesOf trades) * 100 + 1 / 2⌋ : ℚ) / 100 ∧
     (calculateMetrics trades).profitFactor
        = (profitFactorOf (closedTradesOf trades)).round2 ∧
     (calculateMetrics trades).maxDrawdown
        = (⌊calculateMaxDrawdown (closedTradesOf trades) * 100 + 1 / 2⌋ : ℚ) / 100 ∧
     (calculateMetrics trades).expectancy
        = (⌊expectancyOf (closedTradesOf trades) * 100 + 1 / 2⌋ : ℚ) / 100) ∧
    (∀ q : ℚ, (JSNum.fin q).round2
        = JSNum.fin ((⌊q * 100 + 1 / 2⌋ : ℚ) / 100)) ∧
    JSNum.posInf.round2 = JSNum.posInf ∧
    (∀ q : ℚ, 0 ≤ q → (⌊q * 100 + 1 / 2⌋ : ℚ) / 100 = roundHalfAwayFromZero2 q) := by
  refine ⟨?_, fun q => rfl, rfl, ?_⟩
  · unfold calculateMetrics
    rw [if_neg (by simpa using h)]
    exact ⟨rfl, rfl, rfl, rfl, rfl, rfl⟩
  · intro q hq
    unfold roundHalfAwayFromZero2
    rw [if_pos hq]

/-- Witness for C5 (amended) at the half-cent trade and at `q = 1/2`. -/
theorem C5_rounding_amended_witness :
    ((calculateMetrics [cxHalfCent]).profitFactor
        = (profitFactorOf (closedTradesOf [cxHalfCent])).round2 ∧
     (calculateMetrics [cxHalfCent]).expectancy
        = (⌊expectancyOf (closedTradesOf [cxHalfCent]) * 100 + 1 / 2⌋ : ℚ) / 100) ∧
    (⌊(1 / 2 : ℚ) * 100 + 1 / 2⌋ : ℚ) / 100 = roundHalfAwayFromZero2 (1 / 2) :=
  ⟨⟨(C5_rounding_amended [cxHalfCent]
      (by simp [closedTradesOf, List.filter, cxHalfCent])).1.2.2.2.1,
    (C5_rounding_amended [cxHalfCent]
      (by simp [closedTradesOf, List.filter, cxHalfCent])).1.2.2.2.2.2⟩,
   (C5_rounding_amended [cxHalfCent]
      (by simp [closedTradesOf, List.filter, cxHalfCent])).2.2.2 (1 / 2)
      (by norm_num)⟩

/-- C4 counterexample: the risk-percent division is NOT guarded.  With
`accountBalance = 0` and an open trade of positive `entryPrice * quantity`,
the JS division produces `+∞`, and `detectBehaviorWarnings` emits a
HIGH-severity HIGH_RISK warning — whereas the guarded fallback-0 variant the
claim describes yields a risk percent of `0` and would emit nothing. -/
theorem C4_counterexample :
    riskPercentOf 0 cxOpenToday = JSNum.posInf ∧
    riskPercentGuarded 0 cxOpenToday = 0 ∧
    detectBehaviorWarnings (fun t => t) 0 [cxOpenToday] 0
        = [⟨WarningType.HIGH_RISK, WarningMessage.highRiskMsg "BTC" JSNum.posInf,
            Severity.HIGH, 0⟩] := by
  refine ⟨?_, by norm_num [riskPercentGuarded], ?_⟩
  · norm_num [riskPercentOf, jsDiv, JSNum.mul, cxOpenToday]
  · norm_num [detectBehaviorWarnings, todayTradesOf, closedWithCloseTime,
      List.filter, overtradingWarnings, revengeScan, highRiskWarnings,
      consecutiveLossWarnings, consecutiveLossesOf, countLeadingLosses,
      riskPercentOf, jsDiv, JSNum.mul, JSNum.gtQ, List.filterMap, pnlOr0,
      cxOpenToday]

/-- C4 amended: `calculatePnL` and `calculateMetrics` guard every division
they perform (fallback 0, or `+∞`/0 for the profit factor), and the model
is total by construction; but the risk-percent division of
`detectBehaviorWarnings` is unguarded: at account balance 0 it yields `+∞`
(JS semantics, no exception) and every today-trade with positive
`entryPrice * quantity` produces a HIGH-severity HIGH_RISK warning instead
of a fallback. -/
theorem C4_divisions_amended :
    (∀ position entryPrice exitPrice quantity fees,
      ¬ entryPrice * quantity > 0 →
        (calculatePnL position entryPrice exitPrice quantity fees).pnlPercent = 0) ∧
    winRateOf [] = 0 ∧
    (∀ l, winningTradesOf l = [] → avgWinOf l = 0) ∧
    (∀ l, losingTradesOf l = [] → avgLossOf l = 0) ∧
    (∀ l, ¬ grossLossOf l > 0 → ¬ grossProfitOf l > 0 →
      profitFactorOf l = JSNum.fin 0) ∧
    (∀ t : Trade, 0 < t.entryPrice * t.quantity → riskPercentOf 0 t = JSNum.posInf) ∧
    (∀ (sod : ℤ → ℤ) (today : ℤ) (trades : List Trade) (t : Trade),
      t ∈ todayTradesOf sod today trades → 0 < t.entryPrice * t.quantity →
      (⟨WarningType.HIGH_RISK, WarningMessage.highRiskMsg t.asset JSNum.posInf,
        Severity.HIGH, t.openedAt⟩ : BehaviorWarning) ∈
          detectBehaviorWarnings sod today trades 0) := by
  refine ⟨?_, rfl, ?_, ?_, ?_, riskPercentOf_zero_balance, ?_⟩
  · intro position e x q f h
    cases position <;> simp only [calculatePnL] <;> rw [if_neg h]
  · intro l h
    simp [avgWinOf, h]
  · intro l h
    simp [avgLossOf, h]
  · intro l h1 h2
    unfold profitFactorOf
    rw [if_neg h1, if_neg h2]
  · intro sod today trades t hmem hpos
    simp only [detectBehaviorWarnings, List.mem_append]
    refine Or.inl (Or.inr ?_)
    simp only [highRiskWarnings, List.mem_filterMap]
    refine ⟨t, hmem, ?_⟩
    simp only [riskPercentOf_zero_balance t hpos]
    rfl

/-- Witness for C4 (amended): the guarded pnlPercent fallback at
`entryPrice * quantity = 0`, and the unguarded HIGH_RISK emission at
balance 0 for the concrete open trade. -/
theorem C4_divisions_amended_witness :
    (calculatePnL Position.BELI 0 1 1 0).pnlPercent = 0 ∧
    (⟨WarningType.HIGH_RISK, WarningMessage.highRiskMsg "BTC" JSNum.posInf,
      Severity.HIGH, 0⟩ : BehaviorWarning) ∈
        detectBehaviorWarnings (fun t => t) 0 [cxOpenToday] 0 :=
  ⟨C4_divisions_amended.1 Position.BELI 0 1 1 0 (by norm_num),
   C4_divisions_amended.2.2.2.2.2.2 (fun t => t) 0 [cxOpenToday] cxOpenToday
     (by simp [todayTradesOf, List.filter, cxOpenToday])
     (by norm_num [cxOpenToday])⟩

/-- C6 counterexample: `detectBehaviorWarnings` does NOT scan the closed
trades in ascending close-time order — it scans them in caller-supplied
order.  For the list `[cxLateWin, cxEarlyLoss]` the sorted-order scan the
claim describes finds a loss (close 1000) followed 1 second later by the
next open (2000) and predicts a warning; the code, scanning the given
order, sees the winning trade first and emits no REVENGE_TRADING warning. -/
theorem C6_counterexample :
    (detectBehaviorWarnings (fun t => t % 86400000) 8640000000
        [cxLateWin, cxEarlyLoss] 10000).filter
        (fun w => decide (w.type = WarningType.REVENGE_TRADING)) = [] ∧
    (revengeScanSpec (closedWithCloseTime [cxLateWin, cxEarlyLoss])).isSome
        = true := by
  constructor
  · norm_num [detectBehaviorWarnings, todayTradesOf, closedWithCloseTime,
      List.filter, overtradingWarnings, revengeScan, isLossB, highRiskWarnings,
      consecutiveLossWarnings, consecutiveLossesOf, countLeadingLosses, pnlOr0,
      cxLateWin, cxEarlyLoss]
  · norm_num [revengeScanSpec, revengeScan, isLossB, closedWithCloseTime,
      sortByCloseKey, insertByCloseKey, closeKey, List.filter, cxLateWin,
      cxEarlyLoss]

/-- C6 amended: the revenge-trading rule scans the closed trades in the
caller-supplied order (no sorting); the REVENGE_TRADING warnings of
`detectBehaviorWarnings` are exactly the result of that scan, which emits
at most one warning (first triggering adjacent pair only), the scan fires
iff some adjacent pair has a non-null negative pnl on the earlier trade, a
close time, and an open-minus-close gap under 5 minutes, and any emitted
warning has HIGH severity. -/
theorem C6_revenge_amended (sod : ℤ → ℤ) (today : ℤ) (trades : List Trade)
    (bal : ℚ) :
    ((detectBehaviorWarnings sod today trades bal).filter
        (fun w => decide (w.type = WarningType.REVENGE_TRADING))
      = (revengeScan (closedWithCloseTime trades)).toList) ∧
    ((revengeScan (closedWithCloseTime trades)).isSome = true ↔
      ∃ pr ∈ (closedWithCloseTime trades).zip (closedWithCloseTime trades).tail,
        revengePairTrigger pr) ∧
    (∀ t : Trade, isLossB t = true ↔ ∃ p, t.pnl = some p ∧ p < 0) ∧
    (∀ w, revengeScan (closedWithCloseTime trades) = some w →
      w.type = WarningType.REVENGE_TRADING ∧ w.severity = Severity.HIGH) := by
  refine ⟨detect_filter_revenge sod today trades bal,
    revengeScan_isSome_iff (closedWithCloseTime trades),
    fun t => isLossB_eq_true_iff, ?_⟩
  intro w hw
  exact ⟨(revengeScan_eq_some hw).1, (revengeScan_eq_some hw).2.1⟩

/-- Witness for C6 (amended): the scan on `[cxPrevLoss, cxQuickOpen]`
returns a warning, whose type and severity the theorem then gives. -/
theorem C6_revenge_amended_witness :
    (⟨WarningType.REVENGE_TRADING, WarningMessage.revengeMsg, Severity.HIGH,
      0⟩ : BehaviorWarning).type = WarningType.REVENGE_TRADING ∧
    (⟨WarningType.REVENGE_TRADING, WarningMessage.revengeMsg, Severity.HIGH,
      0⟩ : BehaviorWarning).severity = Severity.HIGH :=
  (C6_revenge_amended (fun t => t) 5 [cxPrevLoss, cxQuickOpen] 10000).2.2.2
    ⟨WarningType.REVENGE_TRADING, WarningMessage.revengeMsg, Severity.HIGH, 0⟩
    (by norm_num [revengeScan, isLossB, closedWithCloseTime, List.filter,
      cxPrevLoss, cxQuickOpen])

/-- C7 counterexample: for `cxDescList` (the repository's actual caller
order, most recently closed first) the trailing streak over the five most
RECENTLY closed trades is 3, so the claim predicts one CONSECUTIVE_LOSS
warning; but the code takes the last five elements of the supplied list —
here the five OLDEST — counts a streak of 2, and emits nothing. -/
theorem C7_counterexample :
    3 ≤ consecutiveLossesSpec (closedWithCloseTime cxDescList) ∧
    (detectBehaviorWarnings (fun t => t % 86400000) 8640000000 cxDescList
        10000).filter
        (fun w => decide (w.type = WarningType.CONSECUTIVE_LOSS)) = [] := by
  constructor
  · norm_num [consecutiveLossesSpec, countLeadingLosses, closedWithCloseTime,
      List.filter, sortByCloseKey, insertByCloseKey, closeKey, pnlOr0,
      cxDescList, mkClosed]
  · norm_num [detectBehaviorWarnings, todayTradesOf, closedWithCloseTime,
      List.filter, overtradingWarnings, revengeScan, isLossB, highRiskWarnings,
      consecutiveLossWarnings, consecutiveLossesOf, countLeadingLosses, pnlOr0,
      cxDescList, mkClosed]
    rfl

/-- C7 amended: the consecutive-loss rule takes the LAST five closed trades
in caller-supplied order and counts the trailing streak of negative-pnl
trades from the end of that order (not necessarily the most recently
closed); it emits exactly one CONSECUTIVE_LOSS warning iff the streak is
`≥ 3`, with severity HIGH iff the streak is `≥ 5` (the streak never exceeds
5) and MEDIUM otherwise. -/
theorem C7_consecutive_amended (sod : ℤ → ℤ) (today : ℤ) (trades : List Trade)
    (bal : ℚ) :
    ((detectBehaviorWarnings sod today trades bal).filter
        (fun w => decide (w.type = WarningType.CONSECUTIVE_LOSS))
      = if consecutiveLossesOf (closedWithCloseTime trades) ≥ 3 then
          [⟨WarningType.CONSECUTIVE_LOSS,
            WarningMessage.consecutiveLossMsg
              (consecutiveLossesOf (closedWithCloseTime trades)),
            if consecutiveLossesOf (closedWithCloseTime trades) ≥ 5 then
              Severity.HIGH
            else Severity.MEDIUM, today⟩]
        else []) ∧
    consecutiveLossesOf (closedWithCloseTime trades) ≤ 5 :=
  ⟨(detect_filter_consecutive sod today trades bal).trans rfl,
   consecutiveLossesOf_le_five (closedWithCloseTime trades)⟩

/-- C9: every warning returned by `detectBehaviorWarnings` has severity
MEDIUM or HIGH; the LOW severity admitted by the `BehaviorWarning` type is
never emitted. -/
theorem C9_no_low_severity (sod : ℤ → ℤ) (today : ℤ) (trades : List Trade)
    (bal : ℚ) (w : BehaviorWarning)
    (hw : w ∈ detectBehaviorWarnings sod today trades bal) :
    w.severity = Severity.MEDIUM ∨ w.severity = Severity.HIGH := by
  simp only [detectBehaviorWarnings, List.mem_append] at hw
  rcases hw with ((hO | hR) | hH) | hC
  · exact (mem_overtradingWarnings hO).2
  · cases hrs : revengeScan (closedWithCloseTime trades) with
    | none => rw [hrs] at hR; simp at hR
    | some v =>
      rw [hrs] at hR
      obtain rfl := List.mem_singleton.mp hR
      exact Or.inr (revengeScan_eq_some hrs).2.1
  · exact (mem_highRiskWarnings hH).2
  · exact (mem_consecutiveLossWarnings hC).2

/-- Witness for C9 at the concrete HIGH_RISK warning emitted for
`cxOpenToday` at balance 0. -/
theorem C9_no_low_severity_witness :
    (⟨WarningType.HIGH_RISK, WarningMessage.highRiskMsg "BTC" JSNum.posInf,
      Severity.HIGH, 0⟩ : BehaviorWarning).severity = Severity.MEDIUM ∨
    (⟨WarningType.HIGH_RISK, WarningMessage.highRiskMsg "BTC" JSNum.posInf,
      Severity.HIGH, 0⟩ : BehaviorWarning).severity = Severity.HIGH := by
  apply C9_no_low_severity (fun t => t) 0 [cxOpenToday] 0
  norm_num [detectBehaviorWarnings, todayTradesOf, closedWithCloseTime,
    List.filter, overtradingWarnings, revengeScan, highRiskWarnings,
    consecutiveLossWarnings, consecutiveLossesOf, countLeadingLosses,
    riskPercentOf, jsDiv, JSNum.mul, JSNum.gtQ, List.filterMap, pnlOr0,
    cxOpenToday]

/-- C10: the revenge check imposes no lower bound on the gap — for the list
`[cxPrevLoss, cxQuickOpen]`, where the later closed trade opened 1000
seconds BEFORE the previous losing trade closed (a negative gap),
`detectBehaviorWarnings` still emits a REVENGE_TRADING warning, because
only `gap < 5 minutes` is tested. -/
theorem C10_negative_gap_revenge :
    cxQuickOpen.openedAt < cxPrevLoss.closedAt.getD 0 ∧
    ((detectBehaviorWarnings (fun t => t) 5 [cxPrevLoss, cxQuickOpen]
        10000).filter
        (fun w => decide (w.type = WarningType.REVENGE_TRADING))).length = 1 := by
  constructor
  · norm_num [cxPrevLoss, cxQuickOpen]
  · norm_num [detectBehaviorWarnings, todayTradesOf, closedWithCloseTime,
      List.filter, overtradingWarnings, revengeScan, isLossB, highRiskWarnings,
      consecutiveLossWarnings, consecutiveLossesOf, countLeadingLosses, pnlOr0,
      cxPrevLoss, cxQuickOpen]

end TradingJournal
